import Mathlib

/-!
Shallow embedding of the TLS record-protection layer of
rustls-wolfcrypt-provider (src/rustls-wolfcrypt-provider/src/aead/aes128gcm.rs
and src/rustls-wolfcrypt-provider/src/aead/chacha20.rs), together with the
rustls record-layer helpers those files call (Nonce::new, make_tls12_aad,
make_tls13_aad, into_tls13_unpadded_message) and the black-box AEAD primitive
contract of the wolfcrypt engine.

Bytes are modelled as natural numbers (< 256 wherever the code produces them),
byte buffers as lists of naturals.  The wolfcrypt seal/open primitive is out of
scope of the repository and is modelled as an abstract deterministic primitive
`AeadPrim` constrained by `AeadPrim.Correct`; a concrete executable instance
`toyPrim` satisfying the contract is used to evaluate the record-layer code on
concrete inputs.  Rust panics (explicit `panic!`, `unwrap()` of an error, slice
out-of-bounds, usize underflow) are modelled as a distinguished `panic`
outcome, distinct from a returned `rustls::Error` (`err`).
-/

namespace RustlsWolfcrypt

/-- big-endian encoding of `n` into `w` bytes, most significant first;
models `u64::to_be_bytes` / `put_u16` (truncating casts included, via `% 256`). -/
def be (w n : Nat) : List Nat :=
  (List.range w).map fun i => n / 256 ^ (w - 1 - i) % 256

/-- eight-byte big-endian sequence number, as written by `codec::put_u64`. -/
def be64 (n : Nat) : List Nat := be 8 n

/-- two-byte big-endian value, as written by `codec::put_u16` (with the Rust
`as u16` truncation folded into the `% 256` of each digit). -/
def be16 (n : Nat) : List Nat := be 2 n

/-- byte-wise xor of two buffers (truncates to the shorter, like `zip`). -/
def xorBytes (a b : List Nat) : List Nat := List.zipWith (fun x y => x ^^^ y) a b

/-- rustls `Nonce::new(iv, seq)`: a 12-byte buffer holding the 8-byte
big-endian sequence number right-aligned (4 leading zero bytes), xored
byte-wise with the 12-byte `Iv`. -/
def nonceNew (iv : List Nat) (seq : Nat) : List Nat :=
  xorBytes iv (List.replicate 4 0 ++ be64 seq)

/-- rustls `make_tls12_aad(seq, typ, vers, len)`: 13 bytes =
seq(8) then content type(1) then version(2) then plaintext length(2). -/
def make_tls12_aad (seq typ vers len : Nat) : List Nat :=
  be64 seq ++ [typ] ++ be16 vers ++ be16 len

/-- rustls `make_tls13_aad(len)`: the outer record header
`0x17 0x03 0x03` followed by the 2-byte length of the full encrypted payload. -/
def make_tls13_aad (len : Nat) : List Nat :=
  [0x17, 0x03, 0x03] ++ be16 len

/-- content-type byte for ApplicationData. -/
def contentTypeApplicationData : Nat := 0x17

/-- wire value of ProtocolVersion::TLSv1_2. -/
def versionTls12 : Nat := 0x0303

/-- wire value of ProtocolVersion::TLSv1_3. -/
def versionTls13 : Nat := 0x0304

/-- rustls `MAX_FRAGMENT_LEN`. -/
def maxFragmentLen : Nat := 16384

/-- the black-box wolfcrypt AEAD engine (out of scope of the repository,
spec section 1): a deterministic `seal(key, nonce, aad, plaintext) ->
(ciphertext, tag)` and `open(key, nonce, aad, ciphertext, tag) ->
plaintext | AuthFailure` (`none` models the nonzero return code /
AuthFailure; on failure no plaintext is written). -/
structure AeadPrim where
  sealOp : List Nat → List Nat → List Nat → List Nat → List Nat × List Nat
  opn : List Nat → List Nat → List Nat → List Nat → List Nat → Option (List Nat)

/-- the contract the record layer assumes of the engine: ciphertext has the
plaintext's length, tags are 16 bytes, open inverts seal, and a successful
open writes exactly as many bytes as the ciphertext. -/
structure AeadPrim.Correct (p : AeadPrim) : Prop where
  ct_len : ∀ key nonce aad pt, (p.sealOp key nonce aad pt).1.length = pt.length
  tag_len : ∀ key nonce aad pt, (p.sealOp key nonce aad pt).2.length = 16
  opn_seal : ∀ key nonce aad pt,
    p.opn key nonce aad (p.sealOp key nonce aad pt).1 (p.sealOp key nonce aad pt).2 = some pt
  opn_len : ∀ key nonce aad ct tag pt,
    p.opn key nonce aad ct tag = some pt → pt.length = ct.length

/-- a concrete engine satisfying the contract, used to evaluate the record
layer on concrete inputs: ciphertext = plaintext, tag = 16 copies of a
checksum of key, nonce, aad and ciphertext. -/
def toyTag (key nonce aad ct : List Nat) : List Nat :=
  List.replicate 16 ((key.sum + nonce.sum + aad.sum + ct.sum + ct.length + 1) % 256)

/-- the concrete toy engine. -/
def toyPrim : AeadPrim where
  sealOp := fun key nonce aad pt => (pt, toyTag key nonce aad pt)
  opn := fun key nonce aad ct tag =>
    if tag = toyTag key nonce aad ct then some ct else none

/-- an outbound/inbound plain record: content type, protocol version, payload. -/
structure PlainMsg where
  typ : Nat
  version : Nat
  payload : List Nat
deriving DecidableEq

/-- a protected wire record (rustls Outbound/InboundOpaqueMessage):
outer content type, outer protocol version, encrypted payload. -/
structure WireMsg where
  typ : Nat
  version : Nat
  payload : List Nat
deriving DecidableEq

/-- the 5-byte-header wire encoding of a protected record
(rustls `OutboundOpaqueMessage::encode`): type(1), version(2),
payload length(2), payload. -/
def WireMsg.encode (m : WireMsg) : List Nat :=
  m.typ :: (be16 m.version ++ be16 m.payload.length ++ m.payload)

/-- observable result of a decrypt call: a returned plain message, a returned
`rustls::Error`, or a Rust panic (explicit `panic!`, `.unwrap()` of an error
result, slice out of bounds, or usize underflow). -/
inductive DecStatus where
  | ok : PlainMsg → DecStatus
  | err : DecStatus
  | panic : DecStatus
deriving DecidableEq

/-- result of a decrypt call together with the final contents of the
in-place record payload buffer (the buffer state at panic time for `panic`). -/
structure DecOutcome where
  status : DecStatus
  buffer : List Nat
deriving DecidableEq

/-- state of the AES-128-GCM TLS 1.2 encrypter (aes128gcm.rs `WCTls12Encrypter`):
12-byte iv = implicit(4) then explicit salt(8), raw key bytes. -/
structure WCTls12Encrypter where
  iv : List Nat
  key : List Nat
deriving DecidableEq

/-- state of the AES-128-GCM TLS 1.2 decrypter (aes128gcm.rs `WCTls12Decrypter`):
4-byte implicit iv, raw key bytes. -/
structure WCTls12Decrypter where
  implicit_iv : List Nat
  key : List Nat
deriving DecidableEq

/-- state of the ChaCha20-Poly1305 TLS 1.2 cipher (chacha20.rs `WCTls12Cipher`). -/
structure WCTls12Cipher where
  key : List Nat
  iv : List Nat
deriving DecidableEq

/-- state of the ChaCha20-Poly1305 TLS 1.3 cipher (chacha20.rs `WCTls13Cipher`). -/
structure WCTls13Cipher where
  key : List Nat
  iv : List Nat
deriving DecidableEq

/-- aes128gcm.rs `WCTls12Encrypter::encrypt`: build the nonce from the held
12-byte iv and seq, prefix its last 8 bytes (the explicit part) in the clear,
seal the plaintext in place under the 13-byte TLS 1.2 AAD, append the 16-byte
tag; outer type and version are the plain message's. -/
def WCTls12Encrypter.encrypt (p : AeadPrim) (s : WCTls12Encrypter)
    (m : PlainMsg) (seq : Nat) : WireMsg :=
  let nonce := nonceNew s.iv seq
  let aad := make_tls12_aad seq m.typ m.version m.payload.length
  let st := p.sealOp s.key nonce aad m.payload
  { typ := m.typ, version := m.version, payload := nonce.drop 4 ++ st.1 ++ st.2 }

/-- aes128gcm.rs `WCTls12Encrypter::encrypted_payload_len`:
payload_len + (GCM_NONCE_LENGTH - 4) + GCM_TAG_LENGTH. -/
def WCTls12Encrypter.encrypted_payload_len (n : Nat) : Nat := n + (12 - 4) + 16

/-- aes128gcm.rs `WCTls12Decrypter::decrypt`: read the 8 explicit nonce bytes
from the front of the payload (slice `payload[..8]`, out of bounds below 8
bytes), the 16-byte tag from the back (underflow below 16), rebuild nonce and
AAD (underflow below 24), call the engine's open in place on
`payload[8 .. len-16]`; a negative return code hits an explicit `panic!`;
on success shift the plaintext to the front and truncate. -/
def WCTls12Decrypter.decrypt (p : AeadPrim) (s : WCTls12Decrypter)
    (m : WireMsg) (seq : Nat) : DecOutcome :=
  let payload := m.payload
  let payloadLen := payload.length
  if payloadLen < 8 then ⟨.panic, payload⟩
  else
    let nonce := s.implicit_iv ++ payload.take 8
    if payloadLen < 16 then ⟨.panic, payload⟩
    else
      let authTag := payload.drop (payloadLen - 16)
      if payloadLen < 24 then ⟨.panic, payload⟩
      else
        let aad := make_tls12_aad seq m.typ m.version (payloadLen - 16 - (12 - 4))
        let ct := (payload.drop 8).take (payloadLen - 16 - 8)
        match p.opn s.key nonce aad ct authTag with
        | none => ⟨.panic, payload⟩
        | some pt => ⟨.ok ⟨m.typ, m.version, pt⟩, pt⟩

/-- chacha20.rs `WCTls12Cipher::encrypt`: seal the whole payload under the
implicit nonce and TLS 1.2 AAD, output ciphertext then tag; outer type and
version are the plain message's. -/
def WCTls12Cipher.encrypt (p : AeadPrim) (s : WCTls12Cipher)
    (m : PlainMsg) (seq : Nat) : WireMsg :=
  let nonce := nonceNew s.iv seq
  let aad := make_tls12_aad seq m.typ m.version m.payload.length
  let st := p.sealOp s.key nonce aad m.payload
  { typ := m.typ, version := m.version, payload := st.1 ++ st.2 }

/-- chacha20.rs `WCTls12Cipher::encrypted_payload_len`:
payload_len + CHACHAPOLY1305_OVERHEAD. -/
def WCTls12Cipher.encrypted_payload_len (n : Nat) : Nat := n + 16

/-- chacha20.rs `WCTls12Cipher::decrypt`: `payload.len() - 16` underflows on a
short record; otherwise split ciphertext and tag, open in place; a nonzero
return code makes `check_if_zero(ret).unwrap()` panic (crate::error is not in
scope; modelled from its use in the file's tests, where a nonzero wolfcrypt
return is the error case); on success truncate to the plaintext. -/
def WCTls12Cipher.decrypt (p : AeadPrim) (s : WCTls12Cipher)
    (m : WireMsg) (seq : Nat) : DecOutcome :=
  let payload := m.payload
  if payload.length < 16 then ⟨.panic, payload⟩
  else
    let messageLen := payload.length - 16
    let nonce := nonceNew s.iv seq
    let aad := make_tls12_aad seq m.typ m.version messageLen
    let authTag := payload.drop messageLen
    match p.opn s.key nonce aad (payload.take messageLen) authTag with
    | none => ⟨.panic, payload⟩
    | some pt => ⟨.ok ⟨m.typ, m.version, pt⟩, pt⟩

/-- chacha20.rs `WCTls13Cipher::encrypt`: append the true content type byte to
the plaintext, seal under the TLS 1.3 AAD computed from the total output
length, append the tag; the outer record always carries ApplicationData and
the legacy version TLSv1_2. -/
def WCTls13Cipher.encrypt (p : AeadPrim) (s : WCTls13Cipher)
    (m : PlainMsg) (seq : Nat) : WireMsg :=
  let totalLen := m.payload.length + 1 + 16
  let inner := m.payload ++ [m.typ]
  let nonce := nonceNew s.iv seq
  let aad := make_tls13_aad totalLen
  let st := p.sealOp s.key nonce aad inner
  { typ := contentTypeApplicationData, version := versionTls12,
    payload := st.1 ++ st.2 }

/-- chacha20.rs `WCTls13Cipher::encrypted_payload_len`:
payload_len + 1 + CHACHAPOLY1305_OVERHEAD. -/
def WCTls13Cipher.encrypted_payload_len (n : Nat) : Nat := n + 1 + 16

/-- rustls `unpad_tls13_payload`, on the reversed payload: pop trailing zero
padding, then pop and return the first nonzero byte as the content type;
an exhausted buffer yields type 0 (ContentType::Unknown(0)). -/
def unpadRev : List Nat → Nat × List Nat
  | [] => (0, [])
  | b :: rest => if b = 0 then unpadRev rest else (b, rest)

/-- rustls `InboundOpaqueMessage::into_tls13_unpadded_message`: reject an
oversized record, strip padding and the inner content-type byte, reject a
type byte of 0 (IllegalTlsInnerPlaintext), and report version TLSv1_3. -/
def into_tls13_unpadded_message (payload : List Nat) : DecOutcome :=
  if payload.length > maxFragmentLen + 1 then ⟨.err, payload⟩
  else
    let u := unpadRev payload.reverse
    let rest := u.2.reverse
    if u.1 = 0 then ⟨.err, rest⟩
    else if rest.length > maxFragmentLen then ⟨.err, rest⟩
    else ⟨.ok ⟨u.1, versionTls13, rest⟩, rest⟩

/-- chacha20.rs `WCTls13Cipher::decrypt`: AAD from the full payload length,
`payload.len() - 16` underflows on a short record, open in place with a
nonzero return code panicking through `check_if_zero(ret).unwrap()`
(crate::error modelled as for `WCTls12Cipher.decrypt`); on success truncate
away the tag and run the rustls TLS 1.3 unpadding. -/
def WCTls13Cipher.decrypt (p : AeadPrim) (s : WCTls13Cipher)
    (m : WireMsg) (seq : Nat) : DecOutcome :=
  let payload := m.payload
  let nonce := nonceNew s.iv seq
  let aad := make_tls13_aad payload.length
  if payload.length < 16 then ⟨.panic, payload⟩
  else
    let messageLen := payload.length - 16
    let authTag := payload.drop messageLen
    match p.opn s.key nonce aad (payload.take messageLen) authTag with
    | none => ⟨.panic, payload⟩
    | some pt => into_tls13_unpadded_message pt

/-- result of `Aes128Gcm::extract_keys`: either a `ConnectionTrafficSecrets`
value (key bytes and 12-byte iv) or a Rust panic. -/
inductive ExtractResult where
  | ok : List Nat → List Nat → ExtractResult
  | panic : ExtractResult
deriving DecidableEq

/-- aes128gcm.rs `Aes128Gcm::extract_keys`: allocates a 12-byte zero vector and
calls `copy_from_slice` on the whole vector first with `iv` and then with
`explicit`; Rust's `copy_from_slice` panics unless source and destination have
the same length, and the second copy overwrites the first completely. -/
def Aes128Gcm.extract_keys (key iv explicit : List Nat) : ExtractResult :=
  if iv.length = 12 then
    if explicit.length = 12 then .ok key explicit
    else .panic
  else .panic

/-- aes128gcm.rs `Tls12AeadAlgorithm::encrypter` for `Aes128Gcm`: copies `iv`
into the first 4 bytes and `extra` into the last 8 bytes of a 12-byte array;
each `copy_from_slice` panics (`none`) on any other source length. -/
def Aes128Gcm.encrypter (key iv extra : List Nat) : Option WCTls12Encrypter :=
  if iv.length = 4 ∧ extra.length = 8 then some ⟨iv ++ extra, key⟩ else none

/-- aes128gcm.rs `Tls12AeadAlgorithm::decrypter` for `Aes128Gcm`: copies `iv`
into a 4-byte array; `copy_from_slice` panics (`none`) on any other length. -/
def Aes128Gcm.decrypter (key iv : List Nat) : Option WCTls12Decrypter :=
  if iv.length = 4 then some ⟨iv, key⟩ else none

/-- rustls `Iv::copy`: copies at most 12 bytes into a zeroed 12-byte array
(zero-padding a shorter value, out-of-bounds panic beyond 12 bytes). -/
def ivCopy (iv : List Nat) : Option (List Nat) :=
  if iv.length ≤ 12 then some (iv ++ List.replicate (12 - iv.length) 0) else none

/-- chacha20.rs `Tls12AeadAlgorithm::encrypter` for `Chacha20Poly1305`: copies
the key into a 32-byte vector (`copy_from_slice` panics unless the key is
exactly 32 bytes), then `Iv::copy(iv)`. -/
def Chacha20Poly1305.tls12_encrypter (key iv : List Nat) : Option WCTls12Cipher :=
  if key.length = 32 then (ivCopy iv).map fun v => ⟨key, v⟩ else none

/-- chacha20.rs `Tls12AeadAlgorithm::decrypter` for `Chacha20Poly1305`:
identical construction to the encrypter. -/
def Chacha20Poly1305.tls12_decrypter (key iv : List Nat) : Option WCTls12Cipher :=
  if key.length = 32 then (ivCopy iv).map fun v => ⟨key, v⟩ else none

/-- chacha20.rs `Tls13AeadAlgorithm::encrypter` for `Chacha20Poly1305`:
`key_as_array[..32].copy_from_slice(key)` panics unless the key is exactly
32 bytes; the iv is already a 12-byte `Iv` value. -/
def Chacha20Poly1305.tls13_encrypter (key iv : List Nat) : Option WCTls13Cipher :=
  if key.length = 32 then some ⟨key, iv⟩ else none

/-- chacha20.rs `Tls13AeadAlgorithm::decrypter` for `Chacha20Poly1305`:
identical construction to the encrypter. -/
def Chacha20Poly1305.tls13_decrypter (key iv : List Nat) : Option WCTls13Cipher :=
  if key.length = 32 then some ⟨key, iv⟩ else none

/-- the ASCII bytes of the string hello. -/
def helloBytes : List Nat := [0x68, 0x65, 0x6c, 0x6c, 0x6f]

/-! ## Helper lemmas -/

theorem length_be (w n : Nat) : (be w n).length = w := by
  simp [be]

theorem length_xorBytes (a b : List Nat) :
    (xorBytes a b).length = min a.length b.length := by
  simp [xorBytes]

theorem xorBytes_replicate_zero (a : List Nat) :
    xorBytes a (List.replicate a.length 0) = a := by
  induction a with
  | nil => rfl
  | cons x xs ih => simpa [xorBytes, List.replicate_succ] using ih

theorem xorBytes_replicate_zero_of_length (a : List Nat) (n : Nat) (h : a.length = n) :
    xorBytes a (List.replicate n 0) = a := by
  subst h; exact xorBytes_replicate_zero a

theorem replicate_zero_xorBytes (b : List Nat) :
    xorBytes (List.replicate b.length 0) b = b := by
  induction b with
  | nil => rfl
  | cons x xs ih => simpa [xorBytes, List.replicate_succ] using ih

theorem nonceNew_split (iv4 ex : List Nat) (seq : Nat) (h4 : iv4.length = 4) :
    nonceNew (iv4 ++ ex) seq = iv4 ++ xorBytes ex (be64 seq) := by
  have hz : iv4.length = (List.replicate 4 (0 : Nat)).length := by simp [h4]
  unfold nonceNew xorBytes
  rw [List.zipWith_append _ _ _ _ _ hz]
  congr 1
  exact xorBytes_replicate_zero_of_length iv4 4 h4

theorem nonceNew_drop_four (iv : List Nat) (seq : Nat) :
    (nonceNew iv seq).drop 4 = xorBytes (iv.drop 4) (be64 seq) := by
  unfold nonceNew xorBytes
  rw [List.drop_zipWith]
  congr 1

theorem toyPrim_correct : toyPrim.Correct := by
  constructor
  · intro key nonce aad pt; rfl
  · intro key nonce aad pt; simp [toyPrim, toyTag]
  · intro key nonce aad pt; simp [toyPrim]
  · intro key nonce aad ct tag pt h
    simp only [toyPrim] at h
    by_cases hc : tag = toyTag key nonce aad ct
    · rw [if_pos hc] at h
      cases h
      rfl
    · rw [if_neg hc] at h
      cases h

theorem aes_encrypt_eq (p : AeadPrim) (s : WCTls12Encrypter) (m : PlainMsg) (seq : Nat) :
    WCTls12Encrypter.encrypt p s m seq =
      ⟨m.typ, m.version,
        xorBytes (s.iv.drop 4) (be64 seq)
          ++ (p.sealOp s.key (nonceNew s.iv seq)
                (make_tls12_aad seq m.typ m.version m.payload.length) m.payload).1
          ++ (p.sealOp s.key (nonceNew s.iv seq)
                (make_tls12_aad seq m.typ m.version m.payload.length) m.payload).2⟩ := by
  simp only [WCTls12Encrypter.encrypt, nonceNew_drop_four]

theorem aes_decrypt_explicit (p : AeadPrim) (key iv4 ex ct tag pt : List Nat)
    (typ ver seq : Nat) (hex : ex.length = 8) (htag : tag.length = 16)
    (hopen : p.opn key (iv4 ++ ex) (make_tls12_aad seq typ ver ct.length) ct tag = some pt) :
    WCTls12Decrypter.decrypt p ⟨iv4, key⟩ ⟨typ, ver, ex ++ ct ++ tag⟩ seq
      = ⟨.ok ⟨typ, ver, pt⟩, pt⟩ := by
  have hlen : (ex ++ ct ++ tag).length = ct.length + 24 := by
    rw [List.length_append, List.length_append, hex, htag]; omega
  have hassoc : ex ++ ct ++ tag = ex ++ (ct ++ tag) := by
    rw [List.append_assoc]
  simp only [WCTls12Decrypter.decrypt, hlen]
  rw [if_neg (by omega), if_neg (by omega), if_neg (by omega)]
  have htake : (ex ++ ct ++ tag).take 8 = ex := by
    rw [hassoc, List.take_left' hex]
  have hdroptag : (ex ++ ct ++ tag).drop (ct.length + 24 - 16) = tag := by
    refine List.drop_left' ?_
    rw [List.length_append, hex]; omega
  have hctlen : ct.length + 24 - 16 - (12 - 4) = ct.length := by omega
  rw [htake, hdroptag, hctlen, hassoc, List.drop_left' hex, List.take_left, hopen]

theorem aes_roundtrip (p : AeadPrim) (hp : p.Correct) (key iv4 ex : List Nat)
    (h4 : iv4.length = 4) (h8 : ex.length = 8) (m : PlainMsg) (seq : Nat) :
    WCTls12Decrypter.decrypt p ⟨iv4, key⟩
        (WCTls12Encrypter.encrypt p ⟨iv4 ++ ex, key⟩ m seq) seq
      = ⟨.ok ⟨m.typ, m.version, m.payload⟩, m.payload⟩ := by
  rw [aes_encrypt_eq]
  have hdrop : (iv4 ++ ex).drop 4 = ex := List.drop_left' h4
  have hctlen := hp.ct_len key (nonceNew (iv4 ++ ex) seq)
    (make_tls12_aad seq m.typ m.version m.payload.length) m.payload
  have hres := aes_decrypt_explicit p key iv4 (xorBytes ex (be64 seq))
    (p.sealOp key (nonceNew (iv4 ++ ex) seq)
      (make_tls12_aad seq m.typ m.version m.payload.length) m.payload).1
    (p.sealOp key (nonceNew (iv4 ++ ex) seq)
      (make_tls12_aad seq m.typ m.version m.payload.length) m.payload).2
    m.payload m.typ m.version seq
    (by simp [length_xorBytes, h8, be64, length_be])
    (hp.tag_len key (nonceNew (iv4 ++ ex) seq)
      (make_tls12_aad seq m.typ m.version m.payload.length) m.payload)
    (by
      rw [hctlen, ← nonceNew_split iv4 ex seq h4]
      exact hp.opn_seal key (nonceNew (iv4 ++ ex) seq)
        (make_tls12_aad seq m.typ m.version m.payload.length) m.payload)
  simp only [hdrop]
  exact hres

theorem chacha12_decrypt_explicit (p : AeadPrim) (key iv ct tag pt : List Nat)
    (typ ver seq : Nat) (htag : tag.length = 16)
    (hopen : p.opn key (nonceNew iv seq) (make_tls12_aad seq typ ver ct.length) ct tag
      = some pt) :
    WCTls12Cipher.decrypt p ⟨key, iv⟩ ⟨typ, ver, ct ++ tag⟩ seq
      = ⟨.ok ⟨typ, ver, pt⟩, pt⟩ := by
  have hlen : (ct ++ tag).length = ct.length + 16 := by
    rw [List.length_append, htag]
  have hmsglen : ct.length + 16 - 16 = ct.length := by omega
  simp only [WCTls12Cipher.decrypt, hlen]
  rw [if_neg (by omega), hmsglen, List.take_left, List.drop_left, hopen]

theorem chacha12_roundtrip (p : AeadPrim) (hp : p.Correct) (key iv : List Nat)
    (m : PlainMsg) (seq : Nat) :
    WCTls12Cipher.decrypt p ⟨key, iv⟩
        (WCTls12Cipher.encrypt p ⟨key, iv⟩ m seq) seq
      = ⟨.ok ⟨m.typ, m.version, m.payload⟩, m.payload⟩ := by
  have henc : WCTls12Cipher.encrypt p ⟨key, iv⟩ m seq =
      ⟨m.typ, m.version,
        (p.sealOp key (nonceNew iv seq)
          (make_tls12_aad seq m.typ m.version m.payload.length) m.payload).1
        ++ (p.sealOp key (nonceNew iv seq)
          (make_tls12_aad seq m.typ m.version m.payload.length) m.payload).2⟩ := rfl
  rw [henc]
  have hctlen := hp.ct_len key (nonceNew iv seq)
    (make_tls12_aad seq m.typ m.version m.payload.length) m.payload
  exact chacha12_decrypt_explicit p key iv _ _ m.payload m.typ m.version seq
    (hp.tag_len key (nonceNew iv seq)
      (make_tls12_aad seq m.typ m.version m.payload.length) m.payload)
    (by
      rw [hctlen]
      exact hp.opn_seal key (nonceNew iv seq)
        (make_tls12_aad seq m.typ m.version m.payload.length) m.payload)

theorem into_tls13_unpadded_append (pt : List Nat) (t : Nat) (ht : t ≠ 0)
    (hlen : pt.length ≤ maxFragmentLen) :
    into_tls13_unpadded_message (pt ++ [t]) = ⟨.ok ⟨t, versionTls13, pt⟩, pt⟩ := by
  have hlen' : (pt ++ [t]).length = pt.length + 1 := by simp
  unfold into_tls13_unpadded_message
  rw [hlen']
  rw [if_neg (by unfold maxFragmentLen at *; omega)]
  have hrev : (pt ++ [t]).reverse = t :: pt.reverse := by simp
  rw [hrev]
  simp only [unpadRev, if_neg ht, List.reverse_reverse]
  rw [if_neg (Nat.not_lt.mpr hlen)]

theorem chacha13_decrypt_explicit (p : AeadPrim) (key iv ct tag pt : List Nat)
    (typ ver seq : Nat) (htag : tag.length = 16)
    (hopen : p.opn key (nonceNew iv seq) (make_tls13_aad (ct.length + 16)) ct tag
      = some pt) :
    WCTls13Cipher.decrypt p ⟨key, iv⟩ ⟨typ, ver, ct ++ tag⟩ seq
      = into_tls13_unpadded_message pt := by
  have hlen : (ct ++ tag).length = ct.length + 16 := by
    rw [List.length_append, htag]
  have hmsglen : ct.length + 16 - 16 = ct.length := by omega
  simp only [WCTls13Cipher.decrypt, hlen]
  rw [if_neg (by omega), hmsglen, List.take_left, List.drop_left, hopen]

theorem chacha13_roundtrip (p : AeadPrim) (hp : p.Correct) (key iv : List Nat)
    (m : PlainMsg) (seq : Nat) (ht : m.typ ≠ 0)
    (hlen : m.payload.length ≤ maxFragmentLen) :
    WCTls13Cipher.decrypt p ⟨key, iv⟩
        (WCTls13Cipher.encrypt p ⟨key, iv⟩ m seq) seq
      = ⟨.ok ⟨m.typ, versionTls13, m.payload⟩, m.payload⟩ := by
  have henc : WCTls13Cipher.encrypt p ⟨key, iv⟩ m seq =
      ⟨contentTypeApplicationData, versionTls12,
        (p.sealOp key (nonceNew iv seq) (make_tls13_aad (m.payload.length + 1 + 16))
          (m.payload ++ [m.typ])).1
        ++ (p.sealOp key (nonceNew iv seq) (make_tls13_aad (m.payload.length + 1 + 16))
          (m.payload ++ [m.typ])).2⟩ := rfl
  rw [henc]
  have hctlen := hp.ct_len key (nonceNew iv seq)
    (make_tls13_aad (m.payload.length + 1 + 16)) (m.payload ++ [m.typ])
  have hinner : (m.payload ++ [m.typ]).length = m.payload.length + 1 := by simp
  rw [chacha13_decrypt_explicit p key iv _ _ (m.payload ++ [m.typ])
      contentTypeApplicationData versionTls12 seq
      (hp.tag_len key (nonceNew iv seq)
        (make_tls13_aad (m.payload.length + 1 + 16)) (m.payload ++ [m.typ]))
      (by
        rw [hctlen, hinner]
        exact hp.opn_seal key (nonceNew iv seq)
          (make_tls13_aad (m.payload.length + 1 + 16)) (m.payload ++ [m.typ]))]
  exact into_tls13_unpadded_append m.payload m.typ ht hlen

/-! ## Claims -/

/-- C1 counterexample: for the TLS 1.3 ChaCha20-Poly1305 combination the
round trip does not reproduce the protocol version exactly: encrypting a
record carrying version 0x0303 and decrypting it yields a record whose
version is 0x0304 (TLSv1_3), differing from the original. -/
theorem c1_counterexample :
    (WCTls13Cipher.decrypt toyPrim ⟨[], List.replicate 12 0⟩
        (WCTls13Cipher.encrypt toyPrim ⟨[], List.replicate 12 0⟩ ⟨22, 0x0303, [1]⟩ 0) 0)
      = ⟨.ok ⟨22, 0x0304, [1]⟩, [1]⟩
    ∧ (0x0304 : Nat) ≠ 0x0303 := by
  constructor
  · decide
  · decide

/-- C1 (amended): for every correct engine, round trips reproduce plaintext,
content type and version exactly for AES-128-GCM TLS 1.2 (4-byte implicit iv,
8-byte explicit salt) and ChaCha20-Poly1305 TLS 1.2, and for
ChaCha20-Poly1305 TLS 1.3 on records whose version is TLSv1_3, whose content
type byte is nonzero and whose payload is at most the maximum fragment
length (TLS 1.3 decrypt always reports version TLSv1_3). -/
theorem c1_roundtrip (p : AeadPrim) (hp : p.Correct) :
    (∀ (key iv4 ex : List Nat) (m : PlainMsg) (seq : Nat),
      iv4.length = 4 → ex.length = 8 →
      WCTls12Decrypter.decrypt p ⟨iv4, key⟩
          (WCTls12Encrypter.encrypt p ⟨iv4 ++ ex, key⟩ m seq) seq
        = ⟨.ok ⟨m.typ, m.version, m.payload⟩, m.payload⟩)
    ∧ (∀ (key iv : List Nat) (m : PlainMsg) (seq : Nat),
      WCTls12Cipher.decrypt p ⟨key, iv⟩
          (WCTls12Cipher.encrypt p ⟨key, iv⟩ m seq) seq
        = ⟨.ok ⟨m.typ, m.version, m.payload⟩, m.payload⟩)
    ∧ (∀ (key iv : List Nat) (m : PlainMsg) (seq : Nat),
      m.version = versionTls13 → m.typ ≠ 0 → m.payload.length ≤ maxFragmentLen →
      WCTls13Cipher.decrypt p ⟨key, iv⟩
          (WCTls13Cipher.encrypt p ⟨key, iv⟩ m seq) seq
        = ⟨.ok ⟨m.typ, m.version, m.payload⟩, m.payload⟩) := by
  refine ⟨?_, ?_, ?_⟩
  · intro key iv4 ex m seq h4 h8
    exact aes_roundtrip p hp key iv4 ex h4 h8 m seq
  · intro key iv m seq
    exact chacha12_roundtrip p hp key iv m seq
  · intro key iv m seq hv ht hlen
    rw [hv]
    exact chacha13_roundtrip p hp key iv m seq ht hlen

/-- C1 witness: the round trips evaluated on concrete inputs via the toy
engine, one per cipher/version combination. -/
theorem c1_roundtrip_witness :
    WCTls12Decrypter.decrypt toyPrim ⟨[0, 0, 0, 0], List.replicate 16 0⟩
        (WCTls12Encrypter.encrypt toyPrim ⟨[0, 0, 0, 0] ++ List.replicate 8 0, List.replicate 16 0⟩
          ⟨23, 0x0303, [1, 2, 3]⟩ 5) 5
      = ⟨.ok ⟨23, 0x0303, [1, 2, 3]⟩, [1, 2, 3]⟩
    ∧ WCTls12Cipher.decrypt toyPrim ⟨List.replicate 32 0, List.replicate 12 0⟩
        (WCTls12Cipher.encrypt toyPrim ⟨List.replicate 32 0, List.replicate 12 0⟩
          ⟨23, 0x0303, [1, 2, 3]⟩ 5) 5
      = ⟨.ok ⟨23, 0x0303, [1, 2, 3]⟩, [1, 2, 3]⟩
    ∧ WCTls13Cipher.decrypt toyPrim ⟨List.replicate 32 0, List.replicate 12 0⟩
        (WCTls13Cipher.encrypt toyPrim ⟨List.replicate 32 0, List.replicate 12 0⟩
          ⟨22, 0x0304, [1, 2, 3]⟩ 5) 5
      = ⟨.ok ⟨22, 0x0304, [1, 2, 3]⟩, [1, 2, 3]⟩ :=
  ⟨(c1_roundtrip toyPrim toyPrim_correct).1 (List.replicate 16 0) [0, 0, 0, 0]
      (List.replicate 8 0) ⟨23, 0x0303, [1, 2, 3]⟩ 5 (by decide) (by decide),
   (c1_roundtrip toyPrim toyPrim_correct).2.1 (List.replicate 32 0) (List.replicate 12 0)
      ⟨23, 0x0303, [1, 2, 3]⟩ 5,
   (c1_roundtrip toyPrim toyPrim_correct).2.2 (List.replicate 32 0) (List.replicate 12 0)
      ⟨22, 0x0304, [1, 2, 3]⟩ 5 (by decide) (by decide) (by decide)⟩

/-- C2 counterexample: on concrete well-framed records whose tag does not
authenticate, every one of the three decrypt implementations panics instead
of returning an error result, and a panic is not an error result. -/
theorem c2_counterexample :
    (WCTls12Decrypter.decrypt toyPrim ⟨[0, 0, 0, 0], []⟩
        ⟨23, 0x0303, List.replicate 24 0⟩ 0).status = .panic
    ∧ (WCTls12Cipher.decrypt toyPrim ⟨[], List.replicate 12 0⟩
        ⟨23, 0x0303, List.replicate 16 0⟩ 0).status = .panic
    ∧ (WCTls13Cipher.decrypt toyPrim ⟨[], List.replicate 12 0⟩
        ⟨23, 0x0303, List.replicate 16 0⟩ 0).status = .panic
    ∧ DecStatus.panic ≠ DecStatus.err := by
  refine ⟨by decide, by decide, by decide, by decide⟩

/-- C2 (amended): for every engine, whenever the engine's open call reports an
authentication failure on a well-framed record, each decrypt implementation
panics (AES through an explicit `panic!`, ChaCha through
`check_if_zero(ret).unwrap()`) rather than returning an error result; the
panic leaves the payload buffer in its original state. -/
theorem c2_auth_failure_panics (p : AeadPrim) :
    (∀ (s : WCTls12Decrypter) (m : WireMsg) (seq : Nat),
      24 ≤ m.payload.length →
      p.opn s.key (s.implicit_iv ++ m.payload.take 8)
          (make_tls12_aad seq m.typ m.version (m.payload.length - 16 - (12 - 4)))
          ((m.payload.drop 8).take (m.payload.length - 16 - 8))
          (m.payload.drop (m.payload.length - 16)) = none →
      WCTls12Decrypter.decrypt p s m seq = ⟨.panic, m.payload⟩)
    ∧ (∀ (s : WCTls12Cipher) (m : WireMsg) (seq : Nat),
      16 ≤ m.payload.length →
      p.opn s.key (nonceNew s.iv seq)
          (make_tls12_aad seq m.typ m.version (m.payload.length - 16))
          (m.payload.take (m.payload.length - 16))
          (m.payload.drop (m.payload.length - 16)) = none →
      WCTls12Cipher.decrypt p s m seq = ⟨.panic, m.payload⟩)
    ∧ (∀ (s : WCTls13Cipher) (m : WireMsg) (seq : Nat),
      16 ≤ m.payload.length →
      p.opn s.key (nonceNew s.iv seq) (make_tls13_aad m.payload.length)
          (m.payload.take (m.payload.length - 16))
          (m.payload.drop (m.payload.length - 16)) = none →
      WCTls13Cipher.decrypt p s m seq = ⟨.panic, m.payload⟩) := by
  refine ⟨?_, ?_, ?_⟩
  · intro s m seq hlen hopen
    simp only [WCTls12Decrypter.decrypt]
    rw [if_neg (by omega), if_neg (by omega), if_neg (by omega), hopen]
  · intro s m seq hlen hopen
    simp only [WCTls12Cipher.decrypt]
    rw [if_neg (by omega), hopen]
  · intro s m seq hlen hopen
    simp only [WCTls13Cipher.decrypt]
    rw [if_neg (by omega), hopen]

/-- C2 witness: the amended statement applied to the concrete bad-tag records
of the counterexample. -/
theorem c2_auth_failure_panics_witness :
    WCTls12Decrypter.decrypt toyPrim ⟨[0, 0, 0, 0], []⟩
        ⟨23, 0x0303, List.replicate 24 0⟩ 0 = ⟨.panic, List.replicate 24 0⟩
    ∧ WCTls12Cipher.decrypt toyPrim ⟨[], List.replicate 12 0⟩
        ⟨23, 0x0303, List.replicate 16 0⟩ 0 = ⟨.panic, List.replicate 16 0⟩
    ∧ WCTls13Cipher.decrypt toyPrim ⟨[], List.replicate 12 0⟩
        ⟨23, 0x0303, List.replicate 16 0⟩ 0 = ⟨.panic, List.replicate 16 0⟩ :=
  ⟨(c2_auth_failure_panics toyPrim).1 ⟨[0, 0, 0, 0], []⟩
      ⟨23, 0x0303, List.replicate 24 0⟩ 0 (by decide) (by decide),
   (c2_auth_failure_panics toyPrim).2.1 ⟨[], List.replicate 12 0⟩
      ⟨23, 0x0303, List.replicate 16 0⟩ 0 (by decide) (by decide),
   (c2_auth_failure_panics toyPrim).2.2 ⟨[], List.replicate 12 0⟩
      ⟨23, 0x0303, List.replicate 16 0⟩ 0 (by decide) (by decide)⟩

theorem into_tls13_status_ne_panic (payload : List Nat) :
    (into_tls13_unpadded_message payload).status ≠ DecStatus.panic := by
  simp only [into_tls13_unpadded_message]
  split
  · simp
  · split
    · simp
    · split
      · simp
      · simp

/-- C3: whenever a decrypt call ends in a panic (in particular on every
authentication failure, which panics by `c2_auth_failure_panics`), the record
payload buffer is byte-for-byte the original: no truncation and no overwrite
happens before the failure point, and the engine writes no plaintext on a
failed open. -/
theorem c3_failure_preserves_buffer (p : AeadPrim) :
    (∀ (s : WCTls12Decrypter) (m : WireMsg) (seq : Nat),
      (WCTls12Decrypter.decrypt p s m seq).status = .panic →
      (WCTls12Decrypter.decrypt p s m seq).buffer = m.payload)
    ∧ (∀ (s : WCTls12Cipher) (m : WireMsg) (seq : Nat),
      (WCTls12Cipher.decrypt p s m seq).status = .panic →
      (WCTls12Cipher.decrypt p s m seq).buffer = m.payload)
    ∧ (∀ (s : WCTls13Cipher) (m : WireMsg) (seq : Nat),
      (WCTls13Cipher.decrypt p s m seq).status = .panic →
      (WCTls13Cipher.decrypt p s m seq).buffer = m.payload) := by
  refine ⟨?_, ?_, ?_⟩
  · intro s m seq
    simp only [WCTls12Decrypter.decrypt]
    split
    · intro _; rfl
    · split
      · intro _; rfl
      · split
        · intro _; rfl
        · split
          · intro _; rfl
          · intro h; simp at h
  · intro s m seq
    simp only [WCTls12Cipher.decrypt]
    split
    · intro _; rfl
    · split
      · intro _; rfl
      · intro h; simp at h
  · intro s m seq
    simp only [WCTls13Cipher.decrypt]
    split
    · intro _; rfl
    · split
      · intro _; rfl
      · intro h; exact absurd h (into_tls13_status_ne_panic _)

/-- C3 witness: the buffer-preservation statement applied to concrete
records failing authentication under the toy engine. -/
theorem c3_failure_preserves_buffer_witness :
    (WCTls12Decrypter.decrypt toyPrim ⟨[0, 0, 0, 0], []⟩
        ⟨23, 0x0303, List.replicate 24 0⟩ 0).buffer = List.replicate 24 0
    ∧ (WCTls12Cipher.decrypt toyPrim ⟨[], List.replicate 12 0⟩
        ⟨23, 0x0303, List.replicate 16 0⟩ 0).buffer = List.replicate 16 0
    ∧ (WCTls13Cipher.decrypt toyPrim ⟨[], List.replicate 12 0⟩
        ⟨23, 0x0303, List.replicate 16 0⟩ 0).buffer = List.replicate 16 0 :=
  ⟨(c3_failure_preserves_buffer toyPrim).1 ⟨[0, 0, 0, 0], []⟩
      ⟨23, 0x0303, List.replicate 24 0⟩ 0 (by decide),
   (c3_failure_preserves_buffer toyPrim).2.1 ⟨[], List.replicate 12 0⟩
      ⟨23, 0x0303, List.replicate 16 0⟩ 0 (by decide),
   (c3_failure_preserves_buffer toyPrim).2.2 ⟨[], List.replicate 12 0⟩
      ⟨23, 0x0303, List.replicate 16 0⟩ 0 (by decide)⟩

/-- C4: for every correct engine, the declared expansion function of each
cipher matches exactly the bytes added by encrypt: the produced wire record is
the 5-byte outer header plus `encrypted_payload_len` of the plaintext length,
and the added bytes are 24 (AES-128-GCM TLS 1.2, given the 12-byte encrypter
iv the constructor builds), 16 (ChaCha20-Poly1305 TLS 1.2) and 17
(ChaCha20-Poly1305 TLS 1.3). -/
theorem c4_expansion_exact (p : AeadPrim) (hp : p.Correct) :
    (∀ (s : WCTls12Encrypter) (m : PlainMsg) (seq : Nat), s.iv.length = 12 →
      (WCTls12Encrypter.encrypt p s m seq).encode.length
          = 5 + WCTls12Encrypter.encrypted_payload_len m.payload.length
        ∧ WCTls12Encrypter.encrypted_payload_len m.payload.length
          = m.payload.length + 24)
    ∧ (∀ (s : WCTls12Cipher) (m : PlainMsg) (seq : Nat),
      (WCTls12Cipher.encrypt p s m seq).encode.length
          = 5 + WCTls12Cipher.encrypted_payload_len m.payload.length
        ∧ WCTls12Cipher.encrypted_payload_len m.payload.length
          = m.payload.length + 16)
    ∧ (∀ (s : WCTls13Cipher) (m : PlainMsg) (seq : Nat),
      (WCTls13Cipher.encrypt p s m seq).encode.length
          = 5 + WCTls13Cipher.encrypted_payload_len m.payload.length
        ∧ WCTls13Cipher.encrypted_payload_len m.payload.length
          = m.payload.length + 17) := by
  refine ⟨?_, ?_, ?_⟩
  · intro s m seq hiv
    refine ⟨?_, by simp [WCTls12Encrypter.encrypted_payload_len]⟩
    simp only [WCTls12Encrypter.encrypt, WireMsg.encode, WCTls12Encrypter.encrypted_payload_len,
      List.length_cons, List.length_append, be16, be64, length_be, hp.ct_len, hp.tag_len,
      List.length_drop, nonceNew, length_xorBytes, List.length_replicate, hiv]
    omega
  · intro s m seq
    refine ⟨?_, by simp [WCTls12Cipher.encrypted_payload_len]⟩
    simp only [WCTls12Cipher.encrypt, WireMsg.encode, WCTls12Cipher.encrypted_payload_len,
      List.length_cons, List.length_append, be16, length_be, hp.ct_len, hp.tag_len]
    omega
  · intro s m seq
    refine ⟨?_, by simp [WCTls13Cipher.encrypted_payload_len]⟩
    simp only [WCTls13Cipher.encrypt, WireMsg.encode, WCTls13Cipher.encrypted_payload_len,
      List.length_cons, List.length_append, List.length_nil, be16, length_be,
      hp.ct_len, hp.tag_len]
    omega

/-- C4 witness: the expansion statement evaluated on concrete states, messages
and the toy engine. -/
theorem c4_expansion_exact_witness :
    ((WCTls12Encrypter.encrypt toyPrim ⟨List.replicate 12 0, []⟩ ⟨23, 0x0303, [9, 9]⟩ 0).encode.length
        = 5 + WCTls12Encrypter.encrypted_payload_len 2
      ∧ WCTls12Encrypter.encrypted_payload_len 2 = 2 + 24)
    ∧ ((WCTls12Cipher.encrypt toyPrim ⟨[], []⟩ ⟨23, 0x0303, [9, 9]⟩ 0).encode.length
        = 5 + WCTls12Cipher.encrypted_payload_len 2
      ∧ WCTls12Cipher.encrypted_payload_len 2 = 2 + 16)
    ∧ ((WCTls13Cipher.encrypt toyPrim ⟨[], []⟩ ⟨23, 0x0303, [9, 9]⟩ 0).encode.length
        = 5 + WCTls13Cipher.encrypted_payload_len 2
      ∧ WCTls13Cipher.encrypted_payload_len 2 = 2 + 17) :=
  ⟨(c4_expansion_exact toyPrim toyPrim_correct).1 ⟨List.replicate 12 0, []⟩
      ⟨23, 0x0303, [9, 9]⟩ 0 (by decide),
   (c4_expansion_exact toyPrim toyPrim_correct).2.1 ⟨[], []⟩ ⟨23, 0x0303, [9, 9]⟩ 0,
   (c4_expansion_exact toyPrim toyPrim_correct).2.2 ⟨[], []⟩ ⟨23, 0x0303, [9, 9]⟩ 0⟩

/-- C5 counterexample: with a nonzero explicit salt in the key block (here
salt byte 0 equal to 1) and sequence number 0, the 8 bytes prefixed in the
clear by AES-128-GCM TLS 1.2 encrypt differ from the big-endian sequence
number bytes. -/
theorem c5_counterexample :
    (WCTls12Encrypter.encrypt toyPrim
        ⟨[0, 0, 0, 0] ++ [1, 0, 0, 0, 0, 0, 0, 0], []⟩
        ⟨23, 0x0303, []⟩ 0).payload.take 8 ≠ be64 0 := by
  decide

/-- C5 (amended): the AES-128-GCM TLS 1.2 encrypt output is laid out as
explicit nonce (8 bytes) then ciphertext then 16-byte tag, where the explicit
bytes are the 8-byte explicit salt of the key block xored with the big-endian
sequence number; they equal the sequence number bytes exactly when the salt
is all zero. -/
theorem c5_explicit_nonce_layout (p : AeadPrim) (s : WCTls12Encrypter)
    (m : PlainMsg) (seq : Nat) :
    (WCTls12Encrypter.encrypt p s m seq).payload
        = xorBytes (s.iv.drop 4) (be64 seq)
          ++ (p.sealOp s.key (nonceNew s.iv seq)
                (make_tls12_aad seq m.typ m.version m.payload.length) m.payload).1
          ++ (p.sealOp s.key (nonceNew s.iv seq)
                (make_tls12_aad seq m.typ m.version m.payload.length) m.payload).2
    ∧ (s.iv.drop 4 = List.replicate 8 0 →
        (WCTls12Encrypter.encrypt p s m seq).payload.take 8 = be64 seq) := by
  constructor
  · rw [aes_encrypt_eq]
  · intro hsalt
    rw [aes_encrypt_eq]
    have hxor : xorBytes (s.iv.drop 4) (be64 seq) = be64 seq := by
      rw [hsalt]
      have := replicate_zero_xorBytes (be64 seq)
      simp only [be64, length_be] at this
      exact this
    simp only [hxor, List.append_assoc]
    exact List.take_left' (length_be 8 seq)

/-- C5 witness: the amended layout statement evaluated at the all-zero salt,
where the explicit bytes are exactly the sequence-number bytes. -/
theorem c5_explicit_nonce_layout_witness :
    (WCTls12Encrypter.encrypt toyPrim ⟨List.replicate 12 0, []⟩
        ⟨23, 0x0303, [7]⟩ 5).payload.take 8 = be64 5 :=
  (c5_explicit_nonce_layout toyPrim ⟨List.replicate 12 0, []⟩
      ⟨23, 0x0303, [7]⟩ 5).2 (by decide)

/-- C6: `Aes128Gcm::extract_keys` called with the 4-byte implicit iv and the
8-byte explicit value of its own key-block shape panics: `copy_from_slice`
requires the 12-byte destination vector and the source slice to have equal
lengths, so the claimed implicit-plus-explicit concatenation never happens. -/
theorem c6_extract_keys_panics (key iv explicit : List Nat)
    (h4 : iv.length = 4) (h8 : explicit.length = 8) :
    Aes128Gcm.extract_keys key iv explicit = .panic := by
  unfold Aes128Gcm.extract_keys
  rw [if_neg (by omega)]

/-- C6 witness: the panic evaluated at concrete well-shaped inputs. -/
theorem c6_extract_keys_panics_witness :
    Aes128Gcm.extract_keys (List.replicate 16 0) (List.replicate 4 0)
        (List.replicate 8 0) = .panic :=
  c6_extract_keys_panics (List.replicate 16 0) (List.replicate 4 0)
    (List.replicate 8 0) (by decide) (by decide)

/-- C7: for TLS 1.3 ChaCha20-Poly1305 and every correct engine, encrypt seals
the plaintext with the true content type appended as a single trailing byte,
the outer record always carries ApplicationData and the legacy version
TLSv1_2, and decrypting recovers exactly the original inner content type for
content types alert (21), handshake (22) and application data (23), for
payloads of at most the maximum fragment length. -/
theorem c7_tls13_inner_content_type (p : AeadPrim) (hp : p.Correct)
    (key iv : List Nat) (m : PlainMsg) (seq : Nat)
    (ht : m.typ = 21 ∨ m.typ = 22 ∨ m.typ = 23)
    (hlen : m.payload.length ≤ maxFragmentLen) :
    (WCTls13Cipher.encrypt p ⟨key, iv⟩ m seq).payload
        = (p.sealOp key (nonceNew iv seq) (make_tls13_aad (m.payload.length + 1 + 16))
            (m.payload ++ [m.typ])).1
          ++ (p.sealOp key (nonceNew iv seq) (make_tls13_aad (m.payload.length + 1 + 16))
            (m.payload ++ [m.typ])).2
    ∧ (WCTls13Cipher.encrypt p ⟨key, iv⟩ m seq).typ = contentTypeApplicationData
    ∧ (WCTls13Cipher.encrypt p ⟨key, iv⟩ m seq).version = versionTls12
    ∧ (WCTls13Cipher.decrypt p ⟨key, iv⟩
          (WCTls13Cipher.encrypt p ⟨key, iv⟩ m seq) seq).status
        = .ok ⟨m.typ, versionTls13, m.payload⟩ := by
  have ht0 : m.typ ≠ 0 := by rcases ht with h | h | h <;> omega
  refine ⟨rfl, rfl, rfl, ?_⟩
  rw [chacha13_roundtrip p hp key iv m seq ht0 hlen]

/-- C7 witness: the inner-content-type statement evaluated on a concrete
handshake record under the toy engine. -/
theorem c7_tls13_inner_content_type_witness :
    (WCTls13Cipher.decrypt toyPrim ⟨List.replicate 32 0, List.replicate 12 0⟩
          (WCTls13Cipher.encrypt toyPrim ⟨List.replicate 32 0, List.replicate 12 0⟩
            ⟨22, 0x0304, [1, 2]⟩ 0) 0).status
      = .ok ⟨22, versionTls13, [1, 2]⟩ :=
  (c7_tls13_inner_content_type toyPrim toyPrim_correct (List.replicate 32 0)
      (List.replicate 12 0) ⟨22, 0x0304, [1, 2]⟩ 0 (by decide) (by decide)).2.2.2

/-- C8: on every record whose payload is shorter than the cipher's minimum
(24 bytes for AES-128-GCM TLS 1.2, 16 bytes for both ChaCha20-Poly1305
variants), decrypt panics (slice out of bounds or usize underflow) with the
buffer untouched, instead of returning a framing error to the caller. -/
theorem c8_short_record_panics (p : AeadPrim) :
    (∀ (s : WCTls12Decrypter) (m : WireMsg) (seq : Nat), m.payload.length < 24 →
      WCTls12Decrypter.decrypt p s m seq = ⟨.panic, m.payload⟩)
    ∧ (∀ (s : WCTls12Cipher) (m : WireMsg) (seq : Nat), m.payload.length < 16 →
      WCTls12Cipher.decrypt p s m seq = ⟨.panic, m.payload⟩)
    ∧ (∀ (s : WCTls13Cipher) (m : WireMsg) (seq : Nat), m.payload.length < 16 →
      WCTls13Cipher.decrypt p s m seq = ⟨.panic, m.payload⟩) := by
  refine ⟨?_, ?_, ?_⟩
  · intro s m seq h
    simp only [WCTls12Decrypter.decrypt]
    by_cases h8 : m.payload.length < 8
    · rw [if_pos h8]
    · rw [if_neg h8]
      by_cases h16 : m.payload.length < 16
      · rw [if_pos h16]
      · rw [if_neg h16, if_pos (by omega)]
  · intro s m seq h
    simp only [WCTls12Cipher.decrypt]
    rw [if_pos (by omega)]
  · intro s m seq h
    simp only [WCTls13Cipher.decrypt]
    rw [if_pos (by omega)]

/-- C8 witness: the short-record panic evaluated on empty payloads. -/
theorem c8_short_record_panics_witness :
    WCTls12Decrypter.decrypt toyPrim ⟨[0, 0, 0, 0], []⟩ ⟨23, 0x0303, []⟩ 0
      = ⟨.panic, []⟩
    ∧ WCTls12Cipher.decrypt toyPrim ⟨[], List.replicate 12 0⟩ ⟨23, 0x0303, []⟩ 0
      = ⟨.panic, []⟩
    ∧ WCTls13Cipher.decrypt toyPrim ⟨[], List.replicate 12 0⟩ ⟨23, 0x0303, []⟩ 0
      = ⟨.panic, []⟩ :=
  ⟨(c8_short_record_panics toyPrim).1 ⟨[0, 0, 0, 0], []⟩ ⟨23, 0x0303, []⟩ 0 (by decide),
   (c8_short_record_panics toyPrim).2.1 ⟨[], List.replicate 12 0⟩ ⟨23, 0x0303, []⟩ 0 (by decide),
   (c8_short_record_panics toyPrim).2.2 ⟨[], List.replicate 12 0⟩ ⟨23, 0x0303, []⟩ 0 (by decide)⟩

/-- C9: in the all-zero-key scenario (16-zero-byte key, 4-zero-byte implicit
iv, 8-zero-byte explicit salt, sequence 0, the 5 ASCII bytes of hello,
ApplicationData, TLSv1_2), every correct engine yields a wire record of
exactly 34 bytes (5-byte header, 8-byte explicit nonce, 5-byte ciphertext,
16-byte tag), and two invocations of encrypt on identical inputs produce
byte-identical wire records. -/
theorem c9_known_scenario (p : AeadPrim) (hp : p.Correct) :
    (WCTls12Encrypter.encrypt p
        ⟨List.replicate 4 0 ++ List.replicate 8 0, List.replicate 16 0⟩
        ⟨contentTypeApplicationData, versionTls12, helloBytes⟩ 0).encode.length = 34
    ∧ (WCTls12Encrypter.encrypt p
        ⟨List.replicate 4 0 ++ List.replicate 8 0, List.replicate 16 0⟩
        ⟨contentTypeApplicationData, versionTls12, helloBytes⟩ 0).encode
      = (WCTls12Encrypter.encrypt p
        ⟨List.replicate 4 0 ++ List.replicate 8 0, List.replicate 16 0⟩
        ⟨contentTypeApplicationData, versionTls12, helloBytes⟩ 0).encode := by
  refine ⟨?_, rfl⟩
  simp only [WCTls12Encrypter.encrypt, WireMsg.encode, List.length_cons,
    List.length_append, List.length_nil, be16, be64, length_be, hp.ct_len,
    hp.tag_len, List.length_drop, nonceNew, length_xorBytes,
    List.length_replicate, helloBytes]
  omega

/-- C9 witness: the scenario evaluated with the toy engine. -/
theorem c9_known_scenario_witness :
    (WCTls12Encrypter.encrypt toyPrim
        ⟨List.replicate 4 0 ++ List.replicate 8 0, List.replicate 16 0⟩
        ⟨contentTypeApplicationData, versionTls12, helloBytes⟩ 0).encode.length = 34 :=
  (c9_known_scenario toyPrim toyPrim_correct).1

/-- C10: each public constructor succeeds exactly on the slice lengths of its
key-block shape and panics (`none`) on any other length: the AES-128-GCM
TLS 1.2 encrypter needs a 4-byte iv and an 8-byte explicit salt, its
decrypter a 4-byte iv, and every ChaCha20-Poly1305 constructor a 32-byte key
(the TLS 1.2 ones taking the key-block's 12-byte iv). -/
theorem c10_constructor_lengths :
    (∀ key iv extra, (Aes128Gcm.encrypter key iv extra).isSome
        ↔ (iv.length = 4 ∧ extra.length = 8))
    ∧ (∀ key iv, (Aes128Gcm.decrypter key iv).isSome ↔ iv.length = 4)
    ∧ (∀ key iv, iv.length = 12 →
        ((Chacha20Poly1305.tls12_encrypter key iv).isSome ↔ key.length = 32))
    ∧ (∀ key iv, iv.length = 12 →
        ((Chacha20Poly1305.tls12_decrypter key iv).isSome ↔ key.length = 32))
    ∧ (∀ key iv, (Chacha20Poly1305.tls13_encrypter key iv).isSome ↔ key.length = 32)
    ∧ (∀ key iv, (Chacha20Poly1305.tls13_decrypter key iv).isSome ↔ key.length = 32) := by
  refine ⟨?_, ?_, ?_, ?_, ?_, ?_⟩
  · intro key iv extra
    unfold Aes128Gcm.encrypter
    split <;> simp_all
  · intro key iv
    unfold Aes128Gcm.decrypter
    split <;> simp_all
  · intro key iv hiv
    unfold Chacha20Poly1305.tls12_encrypter ivCopy
    by_cases hk : key.length = 32
    · rw [if_pos hk, if_pos (by omega)]
      simp [hk]
    · rw [if_neg hk]
      simp [hk]
  · intro key iv hiv
    unfold Chacha20Poly1305.tls12_decrypter ivCopy
    by_cases hk : key.length = 32
    · rw [if_pos hk, if_pos (by omega)]
      simp [hk]
    · rw [if_neg hk]
      simp [hk]
  · intro key iv
    unfold Chacha20Poly1305.tls13_encrypter
    split <;> simp_all
  · intro key iv
    unfold Chacha20Poly1305.tls13_decrypter
    split <;> simp_all

/-- C10 witness: the constructor-length statement evaluated at concrete
well-shaped and ill-shaped inputs. -/
theorem c10_constructor_lengths_witness :
    ((Aes128Gcm.encrypter (List.replicate 16 0) (List.replicate 4 0)
        (List.replicate 8 0)).isSome ↔ ((List.replicate (4 : Nat) (0 : Nat)).length = 4
          ∧ (List.replicate (8 : Nat) (0 : Nat)).length = 8))
    ∧ ((Chacha20Poly1305.tls12_encrypter (List.replicate 31 0)
        (List.replicate 12 0)).isSome ↔ (List.replicate (31 : Nat) (0 : Nat)).length = 32) :=
  ⟨(c10_constructor_lengths).1 (List.replicate 16 0) (List.replicate 4 0)
      (List.replicate 8 0),
   (c10_constructor_lengths).2.2.1 (List.replicate 31 0) (List.replicate 12 0) (by decide)⟩

end RustlsWolfcrypt
